import Mathlib

/-!
Shallow embedding of the LLM quiz challenge pipeline
(`src/grading/llm_quiz/core.py`, `src/grading/llm_quiz/validator.py`,
`src/grading-toolkit/llm_quiz/quiz_runner.py`).

Model calls are the only effects: each one is represented by an oracle
input of type `Option String` (`none` = transport failure, otherwise the
raw response text).  Python exceptions inside a `try` block are likewise
represented by an explicit `Option String` oracle carrying `str(e)`.
Everything else (the line-oriented parsers, the counters, the aggregate
pass policy, the JSON persistence shape) is translated directly.
-/

namespace LLMQuiz

/-! ### Python string primitives, over `List Char` -/

/-- Python `str.split(sep)` for a one-character separator. -/
def splitOnChar (sep : Char) : List Char → List (List Char)
  | [] => [[]]
  | c :: cs =>
    if c = sep then [] :: splitOnChar sep cs
    else
      match splitOnChar sep cs with
      | [] => [[c]]
      | h :: t => (c :: h) :: t

/-- The characters Python `str.strip()` removes (ASCII whitespace). -/
def isPySpace (c : Char) : Bool :=
  c = ' ' || c = '\t' || c = '\n' || c = '\r' || c = '\x0b' || c = '\x0c'

/-- Python `str.strip()`. -/
def pyStrip (l : List Char) : List Char :=
  ((l.dropWhile isPySpace).reverse.dropWhile isPySpace).reverse

/-- Python `str.upper()` (ASCII fragment). -/
def pyUpper (l : List Char) : List Char :=
  l.map Char.toUpper

/-- Python `str.lower()` (ASCII fragment). -/
def pyLower (l : List Char) : List Char :=
  l.map Char.toLower

/-- Fuel-driven worker for `removeAll`; the fuel is an upper bound on the
length of the remaining list, so it never runs out. -/
def removeAllGo (pat : List Char) : Nat → List Char → List Char
  | _, [] => []
  | 0, l => l
  | fuel + 1, c :: cs =>
    if pat ≠ [] && pat.isPrefixOf (c :: cs) then
      removeAllGo pat fuel (cs.drop (pat.length - 1))
    else
      c :: removeAllGo pat fuel cs

/-- Python `str.replace(pat, '')`: delete every (left-to-right,
non-overlapping) occurrence of `pat`. -/
def removeAll (pat l : List Char) : List Char :=
  removeAllGo pat l.length l

/-- Python `pat in s` (substring containment). -/
def containsSub : List Char → List Char → Bool
  | [], pat => pat.isEmpty
  | l@(_ :: cs), pat => pat.isPrefixOf l || containsSub cs pat

/-- Python `s.split('\n')`, keeping the pieces as strings. -/
def pyLines (s : String) : List (List Char) :=
  splitOnChar '\n' s.data

/-- Python `line.startswith(pre)`. -/
def lineStarts (pre : String) (l : List Char) : Bool :=
  pre.data.isPrefixOf l

/-- `line.replace(pre, '').strip()`, the field-extraction idiom used by
every free-text parser in `core.py` and `validator.py`. -/
def fieldText (pre : String) (l : List Char) : List Char :=
  pyStrip (removeAll pre.data l)

/-- Python `str.strip()` at the `String` level. -/
def pyStripS (s : String) : String :=
  String.mk (pyStrip s.data)

/-! ### Result records of `core.py` -/

/-- The dict returned by `LLMQuizChallenge.validate_question`. -/
structure ValidationCheck where
  valid : Bool
  issues : List String
  reason : String
  raw_validation : Option String := none
deriving Repr, DecidableEq

/-- The dict returned by `LLMQuizChallenge.evaluate_llm_answer`. -/
structure EvalCheck where
  success : Bool
  verdict : String
  explanation : String
  confidence : String
  student_wins : Bool
  error : Option String
  raw_evaluation : Option String := none
deriving Repr, DecidableEq

/-- The dict returned by `LLMQuizChallenge.send_question_to_quiz_llm`. -/
structure LLMAnswer where
  success : Bool
  answer : String
  error : Option String
deriving Repr, DecidableEq

/-! ### `LLMQuizChallenge.validate_question` (core.py lines 422-531)

`resp` is the value of `call_llm` (`none` = transport failure); Python's
`if not validation:` also treats the empty string as a failure.  `exc`
models a Python exception raised inside the `try` block around the parse
(`some e` carries `str(e)`); the parse body itself is total. -/

/-- The `try`-body of the validation parse (core.py lines 497-521). -/
def validateParseBody (validation : String) : ValidationCheck :=
  let lines := pyLines validation
  let validation_line := lines.find? (lineStarts "VALIDATION:")
  let issues_line := lines.find? (lineStarts "ISSUES:")
  let reason_line := lines.find? (lineStarts "REASON:")
  let is_valid :=
    match validation_line with
    | none => true
    | some l => containsSub (pyUpper (fieldText "VALIDATION:" l)) "PASS".data
  let issues :=
    match issues_line with
    | none => []
    | some l =>
      let issues_text := fieldText "ISSUES:" l
      if pyLower issues_text ≠ "none".data then [String.mk issues_text] else []
  let reason :=
    match reason_line with
    | some l => String.mk (fieldText "REASON:" l)
    | none => validation
  { valid := is_valid, issues := issues, reason := reason,
    raw_validation := some validation }

/-- `LLMQuizChallenge.validate_question`, as a function of the model
response and the exception oracle. -/
def validate_question (resp : Option String) (exc : Option String) :
    ValidationCheck :=
  match resp with
  | none =>
    { valid := false, issues := ["Unable to validate due to API issues"],
      reason := "Validation system unavailable" }
  | some validation =>
    if validation = "" then
      { valid := false, issues := ["Unable to validate due to API issues"],
        reason := "Validation system unavailable" }
    else
      match exc with
      | some _ =>
        { valid := false, issues := ["Unable to parse validation response"],
          reason := "Validation parsing error: " ++ validation,
          raw_validation := some validation }
      | none => validateParseBody validation

/-! ### `LLMQuizChallenge.evaluate_llm_answer` (core.py lines 533-640) -/

/-- The `try`-body of the evaluation parse (core.py lines 590-629). -/
def evalParseBody (evaluation : String) : EvalCheck :=
  let lines := pyLines evaluation
  let verdict_line := lines.find? (lineStarts "VERDICT:")
  let explanation_line := lines.find? (lineStarts "EXPLANATION:")
  let confidence_line := lines.find? (lineStarts "CONFIDENCE:")
  let student_wins_line := lines.find? (lineStarts "STUDENT_WINS:")
  let verdict :=
    match verdict_line with
    | none => "INCORRECT"
    | some l =>
      let verdict_text := pyUpper (fieldText "VERDICT:" l)
      if containsSub verdict_text "INCORRECT".data then "INCORRECT"
      else if containsSub verdict_text "CORRECT".data then "CORRECT"
      else "INCORRECT"
  let explanation :=
    match explanation_line with
    | some l => String.mk (fieldText "EXPLANATION:" l)
    | none => evaluation
  let confidence :=
    match confidence_line with
    | some l => String.mk (pyUpper (fieldText "CONFIDENCE:" l))
    | none => "MEDIUM"
  let student_wins :=
    match student_wins_line with
    | none => verdict = "INCORRECT"
    | some l =>
      containsSub (pyUpper (fieldText "STUDENT_WINS:" l)) "TRUE".data
  { success := true, verdict := verdict, explanation := explanation,
    confidence := confidence, student_wins := student_wins,
    error := none, raw_evaluation := some evaluation }

/-- `LLMQuizChallenge.evaluate_llm_answer`, as a function of the model
response and the exception oracle. -/
def evaluate_llm_answer (resp : Option String) (exc : Option String) :
    EvalCheck :=
  match resp with
  | none =>
    { success := false, verdict := "ERROR",
      explanation := "Unable to evaluate due to API issues",
      confidence := "LOW", student_wins := false,
      error := some "Evaluation system unavailable" }
  | some evaluation =>
    if evaluation = "" then
      { success := false, verdict := "ERROR",
        explanation := "Unable to evaluate due to API issues",
        confidence := "LOW", student_wins := false,
        error := some "Evaluation system unavailable" }
    else
      match exc with
      | some e =>
        { success := false, verdict := "INCORRECT",
          explanation := "Raw evaluation: " ++ evaluation,
          confidence := "LOW", student_wins := false,
          error := some ("Parsing error: " ++ e) }
      | none => evalParseBody evaluation

/-! ### `LLMQuizChallenge.send_question_to_quiz_llm` (core.py 214-258) -/

/-- `send_question_to_quiz_llm` as a function of the quiz model's
response. -/
def send_question_to_quiz_llm (resp : Option String) : LLMAnswer :=
  match resp with
  | none =>
    { success := false, answer := "No response from LLM",
      error := some "LLM did not provide a response" }
  | some llm_response =>
    if llm_response = "" then
      { success := false, answer := "No response from LLM",
        error := some "LLM did not provide a response" }
    else
      { success := true, answer := pyStripS llm_response, error := none }

/-- `LLMQuizChallenge.request_missing_answer` (core.py 408-420): the
stripped user reply (the empty-reply branch also returns `""`). -/
def request_missing_answer (reply : String) : String :=
  pyStripS reply

/-! ### `validator.py`: `ValidationIssue`, `ValidationResult`, and the
free-text parser `QuestionValidator._parse_validation_response` -/

/-- The `ValidationIssue` enum (validator.py 19-24). -/
inductive ValidationIssue where
  | heavy_math
  | prompt_injection
  | answer_quality
  | context_mismatch
deriving Repr, DecidableEq

/-- The `.value` string of a `ValidationIssue` member. -/
def ValidationIssue.value : ValidationIssue → String
  | .heavy_math => "heavy_math"
  | .prompt_injection => "prompt_injection"
  | .answer_quality => "answer_quality"
  | .context_mismatch => "context_mismatch"

/-- The `ValidationResult` dataclass (validator.py 27-34). -/
structure ValidationResult where
  valid : Bool
  issues : List ValidationIssue
  reason : String
  confidence : String := "medium"
  raw_validation : Option String := none
deriving Repr, DecidableEq

/-- The `try`-body of `QuestionValidator._parse_validation_response`
(validator.py 361-401). -/
def parseValidationBody (response : String) : ValidationResult :=
  let lines := pyLines response
  let validation_line := lines.find? (lineStarts "VALIDATION:")
  let issues_line := lines.find? (lineStarts "ISSUES:")
  let reason_line := lines.find? (lineStarts "REASON:")
  let confidence_line := lines.find? (lineStarts "CONFIDENCE:")
  let is_valid :=
    match validation_line with
    | none => true
    | some l => containsSub (pyUpper (fieldText "VALIDATION:" l)) "PASS".data
  let issues :=
    match issues_line with
    | none => []
    | some l =>
      let issues_text := pyLower (fieldText "ISSUES:" l)
      if issues_text = "none".data then []
      else
        (if containsSub issues_text "heavy math".data ||
            containsSub issues_text "mathematical".data then
          [ValidationIssue.heavy_math] else []) ++
        (if containsSub issues_text "prompt injection".data ||
            containsSub issues_text "manipulation".data then
          [ValidationIssue.prompt_injection] else []) ++
        (if containsSub issues_text "answer quality".data ||
            containsSub issues_text "incorrect".data then
          [ValidationIssue.answer_quality] else []) ++
        (if containsSub issues_text "context".data ||
            containsSub issues_text "mismatch".data then
          [ValidationIssue.context_mismatch] else [])
  let reason :=
    match reason_line with
    | some l => String.mk (fieldText "REASON:" l)
    | none => response
  let confidence :=
    match confidence_line with
    | some l => String.mk (pyLower (fieldText "CONFIDENCE:" l))
    | none => "medium"
  { valid := is_valid, issues := issues, reason := reason,
    confidence := confidence, raw_validation := some response }

/-- `QuestionValidator._parse_validation_response`, with the exception
oracle for its `except` clause (validator.py 403-411). -/
def parse_validation_response (response : String) (exc : Option String) :
    ValidationResult :=
  match exc with
  | some _ =>
    { valid := false, issues := [],
      reason := "Validation parsing error: " ++ response,
      raw_validation := some response }
  | none => parseValidationBody response

/-! ### `LLMQuizChallenge.run_sequential_challenge` (core.py 642-785)

One `QuestionScript` bundles a question together with the environment's
responses to every model call (and user prompt) the orchestrator may
issue for it. -/

/-- A quiz question plus the oracle values for its run. -/
structure QuestionScript where
  question : String
  answer : String
  /-- Reply typed at the `request_missing_answer` prompt. -/
  userAnswer : String := ""
  /-- `call_llm` response of the validation call. -/
  valResp : Option String := none
  /-- Exception raised while parsing the validation response. -/
  valExc : Option String := none
  /-- `call_llm` response of the answering call. -/
  ansResp : Option String := none
  /-- `call_llm` response of the evaluation call. -/
  evalResp : Option String := none
  /-- Exception raised while parsing the evaluation response. -/
  evalExc : Option String := none
deriving Repr, DecidableEq

/-- The (heterogeneous) value of the `"error"` key of a per-question
evaluation dict: `True` for invalid questions, a message string for
system errors, `None` on the normal path. -/
inductive ErrVal where
  | noneVal
  | boolVal (b : Bool)
  | strVal (s : String)
deriving Repr, DecidableEq

/-- The evaluation sub-dict stored inside a question result (its key set
varies per branch, hence the `Option` fields). -/
structure RecordEval where
  success : Option Bool
  verdict : String
  explanation : String
  confidence : String
  student_wins : Bool
  error : ErrVal
  raw_evaluation : Option String
deriving Repr, DecidableEq

/-- View an `EvalCheck` as the evaluation sub-dict it is stored as. -/
def toRecordEval (e : EvalCheck) : RecordEval :=
  { success := some e.success, verdict := e.verdict,
    explanation := e.explanation, confidence := e.confidence,
    student_wins := e.student_wins,
    error := match e.error with
      | none => .noneVal
      | some s => .strVal s,
    raw_evaluation := e.raw_evaluation }

/-- One entry of `results["question_results"]`. -/
structure QuestionRecord where
  question_number : Nat
  question : String
  correct_answer : String
  llm_answer : String
  evaluation : RecordEval
  validation : ValidationCheck
  student_wins : Bool
  winner : String
deriving Repr, DecidableEq

/-- One entry of `results["validation_results"]`. -/
structure ValidationRecord where
  question_number : Nat
  question : String
  validation : ValidationCheck
deriving Repr, DecidableEq

/-- The mutable counters and lists accumulated by the question loop. -/
structure RunState where
  valid_questions : Nat := 0
  invalid_questions : Nat := 0
  system_errors : Nat := 0
  student_wins : Nat := 0
  llm_wins : Nat := 0
  question_results : List QuestionRecord := []
  validation_results : List ValidationRecord := []
deriving Repr, DecidableEq

/-- Python `f"{x}"` for an optional string (`None` prints as `"None"`). -/
def pyShow : Option String → String
  | none => "None"
  | some s => s

/-- The pseudo-evaluation built when the answering call fails
(core.py 716-724). -/
def systemErrorEval (err : Option String) : EvalCheck :=
  { success := true, verdict := "SYSTEM_ERROR",
    explanation := "LLM failed to respond due to system issues: " ++ pyShow err,
    confidence := "HIGH", student_wins := false, error := err,
    raw_evaluation := some ("System Error: " ++ pyShow err) }

/-- The default evaluation substituted when `evaluate_llm_answer`
reports failure (core.py 734-741). -/
def evalFailureDefault (e : EvalCheck) : EvalCheck :=
  { success := true, verdict := "INCORRECT",
    explanation := "Evaluation failed: " ++ pyShow e.error,
    confidence := "LOW", student_wins := false, error := e.error }

/-- The question result recorded for an invalid question
(core.py 689-704). -/
def invalidRecord (i : Nat) (q : QuestionScript) (correct_answer : String)
    (validation : ValidationCheck) : QuestionRecord :=
  { question_number := i + 1, question := q.question,
    correct_answer := correct_answer,
    llm_answer := "Question rejected due to validation issues",
    evaluation :=
      { success := none, verdict := "INVALID",
        explanation := "Question validation failed: " ++ validation.reason,
        confidence := "HIGH", student_wins := false,
        error := .boolVal true, raw_evaluation := none },
    validation := validation, student_wins := false,
    winner := "Invalid Question" }

/-- The loop body from the validation call on, once the reference answer
is settled (core.py 675-767). -/
def processValidated (st : RunState) (i : Nat) (q : QuestionScript)
    (correct_answer : String) : RunState :=
  let validation := validate_question q.valResp q.valExc
  let st := { st with validation_results := st.validation_results ++
      [({ question_number := i + 1, question := q.question,
          validation := validation } : ValidationRecord)] }
  if validation.valid = false then
    { st with invalid_questions := st.invalid_questions + 1,
              question_results := st.question_results ++
                [invalidRecord i q correct_answer validation] }
  else
    let st := { st with valid_questions := st.valid_questions + 1 }
    let llm_response := send_question_to_quiz_llm q.ansResp
    let evaluation :=
      if llm_response.success = false then systemErrorEval llm_response.error
      else evaluate_llm_answer q.evalResp q.evalExc
    let llm_answer :=
      if llm_response.success = false then "No response from LLM"
      else llm_response.answer
    let evaluation :=
      if evaluation.success = false then evalFailureDefault evaluation
      else evaluation
    let (st, winner) :=
      if evaluation.verdict = "SYSTEM_ERROR" then
        ({ st with system_errors := st.system_errors + 1 }, "System Error")
      else if evaluation.student_wins then
        ({ st with student_wins := st.student_wins + 1 }, "Student")
      else
        ({ st with llm_wins := st.llm_wins + 1 }, "LLM")
    { st with question_results := st.question_results ++
      [({ question_number := i + 1, question := q.question,
          correct_answer := correct_answer, llm_answer := llm_answer,
          evaluation := toRecordEval evaluation, validation := validation,
          student_wins :=
            if evaluation.verdict ≠ "SYSTEM_ERROR" then evaluation.student_wins
            else false,
          winner := winner } : QuestionRecord)] }

/-- The whole loop body for question `i` (core.py 660-767), including
the missing-answer step. -/
def processQuestion (st : RunState) (i : Nat) (q : QuestionScript) :
    RunState :=
  if q.answer = "" then
    let correct_answer := request_missing_answer q.userAnswer
    if correct_answer = "" then
      { st with invalid_questions := st.invalid_questions + 1 }
    else processValidated st i q correct_answer
  else processValidated st i q q.answer

/-- The question loop. -/
def runLoop (i : Nat) (st : RunState) : List QuestionScript → RunState
  | [] => st
  | q :: qs => runLoop (i + 1) (processQuestion st i q) qs

/-- The final results dict of `run_sequential_challenge`. -/
structure ChallengeResults where
  quiz_title : String
  quiz_model : String
  evaluator_model : String
  total_questions : Nat
  valid_questions : Nat
  invalid_questions : Nat
  system_errors : Nat
  student_wins : Nat
  llm_wins : Nat
  question_results : List QuestionRecord
  validation_results : List ValidationRecord
  student_success_rate : ℚ
  github_classroom_result : String
  student_passes : Bool
  pass_criteria : String
deriving Repr, DecidableEq

/-- `LLMQuizChallenge.run_sequential_challenge`: the loop followed by
the aggregate computation of core.py lines 769-785. -/
def run_sequential_challenge (quiz_title quiz_model evaluator_model : String)
    (questions : List QuestionScript) : ChallengeResults :=
  let st := runLoop 0 {} questions
  let evaluated_questions := st.student_wins + st.llm_wins
  let student_success_rate : ℚ :=
    if 0 < evaluated_questions then
      (st.student_wins : ℚ) / (evaluated_questions : ℚ)
    else 0
  let has_valid_questions := decide (0 < st.valid_questions)
  let has_evaluated_questions := decide (0 < evaluated_questions)
  let student_passes := has_valid_questions && has_evaluated_questions &&
    decide ((1 : ℚ) ≤ student_success_rate)
  { quiz_title := quiz_title, quiz_model := quiz_model,
    evaluator_model := evaluator_model,
    total_questions := questions.length,
    valid_questions := st.valid_questions,
    invalid_questions := st.invalid_questions,
    system_errors := st.system_errors,
    student_wins := st.student_wins,
    llm_wins := st.llm_wins,
    question_results := st.question_results,
    validation_results := st.validation_results,
    student_success_rate := student_success_rate,
    github_classroom_result :=
      if student_passes then "STUDENTS_QUIZ_KEIKO_WIN"
      else "STUDENTS_QUIZ_KEIKO_LOSE",
    student_passes := student_passes,
    pass_criteria := "At least one valid question AND win rate = 100% (stump LLM on ALL questions, system errors excluded)" }

/-! ### `quiz_runner.py`: result dataclasses and `save_results`

`QuizRunner.save_results` (quiz_runner.py 442-493) builds a nested dict
from a `QuizResults` and `json.dump`s it.  The persisted JSON document is
modelled by the AST `J`; reading the file back is modelled by field
lookups on that AST. -/

/-- A JSON value. -/
inductive J where
  | null
  | jbool (b : Bool)
  | jnum (q : ℚ)
  | jstr (s : String)
  | jarr (elems : List J)
  | jobj (fields : List (String × J))

/-- The `QuizQuestion` dataclass (quiz_runner.py 42-48). -/
structure QuizQuestion where
  question : String
  answer : String
  number : Nat
  validation_result : Option ValidationResult := none

/-- The `QuestionResult` dataclass (quiz_runner.py 51-61). -/
structure QuestionResult where
  question : QuizQuestion
  llm_answer : String
  is_correct : Bool
  student_wins : Bool
  evaluation_explanation : String
  evaluation_confidence : String
  raw_evaluation : Option String := none
  error : Option String := none

/-- The `QuizResults` dataclass (quiz_runner.py 64-78); the
`validation_summary` dict is carried opaquely as a JSON value. -/
structure QuizResults where
  total_questions : Nat
  valid_questions : Nat
  invalid_questions : Nat
  system_errors : Nat
  student_wins : Nat
  llm_wins : Nat
  student_success_rate : ℚ
  question_results : List QuestionResult
  validation_summary : J
  quiz_title : String := "Quiz Challenge"
  quiz_model : String := ""
  evaluator_model : String := ""

/-- The `student_passes` property (quiz_runner.py 80-86). -/
def QuizResults.student_passes (r : QuizResults) : Bool :=
  decide (0 < r.valid_questions) &&
  decide (0 < r.student_wins + r.llm_wins) &&
  decide ((1:ℚ) ≤ r.student_success_rate)

/-- One entry of the saved `question_results` array
(quiz_runner.py 464-482). -/
def questionResultJson (qr : QuestionResult) : J :=
  .jobj [
    ("question_number", .jnum qr.question.number),
    ("question", .jstr qr.question.question),
    ("correct_answer", .jstr qr.question.answer),
    ("llm_answer", .jstr qr.llm_answer),
    ("is_correct", .jbool qr.is_correct),
    ("student_wins", .jbool qr.student_wins),
    ("evaluation_explanation", .jstr qr.evaluation_explanation),
    ("evaluation_confidence", .jstr qr.evaluation_confidence),
    ("validation", .jobj [
      ("valid", .jbool (match qr.question.validation_result with
        | some v => v.valid
        | none => false)),
      ("issues", .jarr ((match qr.question.validation_result with
        | some v => v.issues
        | none => ([] : List ValidationIssue)).map
          (fun (i : ValidationIssue) => J.jstr i.value))),
      ("reason", .jstr (match qr.question.validation_result with
        | some v => v.reason
        | none => ""))]),
    ("error", match qr.error with
      | some s => .jstr s
      | none => .null)]

/-- The full saved document (quiz_runner.py 451-484). -/
def save_results_json (r : QuizResults) : J :=
  .jobj [
    ("quiz_title", .jstr r.quiz_title),
    ("quiz_model", .jstr r.quiz_model),
    ("evaluator_model", .jstr r.evaluator_model),
    ("total_questions", .jnum r.total_questions),
    ("valid_questions", .jnum r.valid_questions),
    ("invalid_questions", .jnum r.invalid_questions),
    ("system_errors", .jnum r.system_errors),
    ("student_wins", .jnum r.student_wins),
    ("llm_wins", .jnum r.llm_wins),
    ("student_success_rate", .jnum r.student_success_rate),
    ("student_passes", .jbool r.student_passes),
    ("github_classroom_result", .jstr (if r.student_passes then
      "STUDENTS_QUIZ_KEIKO_WIN" else "STUDENTS_QUIZ_KEIKO_LOSE")),
    ("question_results", .jarr (r.question_results.map questionResultJson)),
    ("validation_summary", r.validation_summary)]

/-! ### Reading the persisted JSON back -/

/-- Key lookup in an association list of JSON fields. -/
def lookupField : List (String × J) → String → Option J
  | [], _ => none
  | (k', v) :: rest, k => if k' = k then some v else lookupField rest k

/-- Key lookup in a JSON object. -/
def J.get? (j : J) (k : String) : Option J :=
  match j with
  | .jobj fields => lookupField fields k
  | _ => none

/-- Numeric field. -/
def jsonNum? (j : J) (k : String) : Option ℚ :=
  match j.get? k with
  | some (.jnum q) => some q
  | _ => none

/-- Boolean field. -/
def jsonBool? (j : J) (k : String) : Option Bool :=
  match j.get? k with
  | some (.jbool b) => some b
  | _ => none

/-- String field. -/
def jsonStr? (j : J) (k : String) : Option String :=
  match j.get? k with
  | some (.jstr s) => some s
  | _ => none

/-- Array field. -/
def jsonArr? (j : J) (k : String) : Option (List J) :=
  match j.get? k with
  | some (.jarr xs) => some xs
  | _ => none

/-- The claim-relevant part of one saved question entry. -/
structure SavedQuestionView where
  question_number : ℚ
  student_wins : Bool
  is_correct : Bool
deriving Repr, DecidableEq

/-- Read one saved question entry back. -/
def readQuestionView (j : J) : Option SavedQuestionView :=
  match jsonNum? j "question_number", jsonBool? j "student_wins",
      jsonBool? j "is_correct" with
  | some n, some w, some c => some ⟨n, w, c⟩
  | _, _, _ => none

/-- Read a saved question array back. -/
def readQuestionViews : List J → Option (List SavedQuestionView)
  | [] => some []
  | j :: js =>
    match readQuestionView j, readQuestionViews js with
    | some v, some vs => some (v :: vs)
    | _, _ => none

/-- The claim-relevant part of a saved results document. -/
structure SavedResultsView where
  total_questions : ℚ
  valid_questions : ℚ
  invalid_questions : ℚ
  system_errors : ℚ
  student_wins : ℚ
  llm_wins : ℚ
  student_passes : Bool
  question_results : List SavedQuestionView
deriving Repr, DecidableEq

/-- Read a saved results document back. -/
def readResultsView (j : J) : Option SavedResultsView :=
  match jsonNum? j "total_questions", jsonNum? j "valid_questions",
      jsonNum? j "invalid_questions", jsonNum? j "system_errors",
      jsonNum? j "student_wins", jsonNum? j "llm_wins",
      jsonBool? j "student_passes", jsonArr? j "question_results" with
  | some t, some v, some iv, some se, some w, some l, some p, some arr =>
    match readQuestionViews arr with
    | some qrs => some ⟨t, v, iv, se, w, l, p, qrs⟩
    | none => none
  | _, _, _, _, _, _, _, _ => none

/-! ### `LLMQuizChallenge.save_results` (core.py 985-993): the results
dict of `run_sequential_challenge` is dumped as-is. -/

/-- The `"error"` value of an evaluation sub-dict as JSON. -/
def errValJson : ErrVal → J
  | .noneVal => .null
  | .boolVal b => .jbool b
  | .strVal s => .jstr s

/-- A validation dict as JSON (`raw_validation` present only when the
parse path produced it). -/
def validationCheckJson (v : ValidationCheck) : J :=
  .jobj ([("valid", .jbool v.valid),
    ("issues", .jarr (v.issues.map J.jstr)),
    ("reason", .jstr v.reason)] ++
    (match v.raw_validation with
     | some s => [("raw_validation", J.jstr s)]
     | none => []))

/-- An evaluation sub-dict as JSON (`success` / `raw_evaluation` keys
present only on the branches that set them). -/
def recordEvalJson (ev : RecordEval) : J :=
  .jobj ((match ev.success with
      | some b => [("success", J.jbool b)]
      | none => []) ++
    [("verdict", .jstr ev.verdict),
     ("explanation", .jstr ev.explanation),
     ("confidence", .jstr ev.confidence),
     ("student_wins", .jbool ev.student_wins),
     ("error", errValJson ev.error)] ++
    (match ev.raw_evaluation with
     | some s => [("raw_evaluation", J.jstr s)]
     | none => []))

/-- One entry of `results["question_results"]` as JSON
(core.py 689-704 and 756-765). -/
def questionRecordJson (qr : QuestionRecord) : J :=
  .jobj [
    ("question_number", .jnum qr.question_number),
    ("question", .jstr qr.question),
    ("correct_answer", .jstr qr.correct_answer),
    ("llm_answer", .jstr qr.llm_answer),
    ("evaluation", recordEvalJson qr.evaluation),
    ("validation", validationCheckJson qr.validation),
    ("student_wins", .jbool qr.student_wins),
    ("winner", .jstr qr.winner)]

/-- One entry of `results["validation_results"]` as JSON
(core.py 678-682). -/
def validationRecordJson (vr : ValidationRecord) : J :=
  .jobj [
    ("question_number", .jnum vr.question_number),
    ("question", .jstr vr.question),
    ("validation", validationCheckJson vr.validation)]

/-- The whole results dict of `run_sequential_challenge` as JSON, as
dumped by core.py's `save_results`. -/
def challengeResultsJson (r : ChallengeResults) : J :=
  .jobj [
    ("quiz_title", .jstr r.quiz_title),
    ("quiz_model", .jstr r.quiz_model),
    ("evaluator_model", .jstr r.evaluator_model),
    ("total_questions", .jnum r.total_questions),
    ("valid_questions", .jnum r.valid_questions),
    ("invalid_questions", .jnum r.invalid_questions),
    ("system_errors", .jnum r.system_errors),
    ("student_wins", .jnum r.student_wins),
    ("llm_wins", .jnum r.llm_wins),
    ("question_results", .jarr (r.question_results.map questionRecordJson)),
    ("validation_results",
      .jarr (r.validation_results.map validationRecordJson)),
    ("student_success_rate", .jnum r.student_success_rate),
    ("github_classroom_result", .jstr r.github_classroom_result),
    ("student_passes", .jbool r.student_passes),
    ("pass_criteria", .jstr r.pass_criteria)]

/-- The claim-relevant part of one saved core question entry. -/
structure SavedCoreQuestionView where
  question_number : ℚ
  student_wins : Bool
  winner : String
deriving Repr, DecidableEq

/-- Read one saved core question entry back. -/
def readCoreQuestionView (j : J) : Option SavedCoreQuestionView :=
  match jsonNum? j "question_number", jsonBool? j "student_wins",
      jsonStr? j "winner" with
  | some n, some w, some win => some ⟨n, w, win⟩
  | _, _, _ => none

/-- Read a saved core question array back. -/
def readCoreQuestionViews : List J → Option (List SavedCoreQuestionView)
  | [] => some []
  | j :: js =>
    match readCoreQuestionView j, readCoreQuestionViews js with
    | some v, some vs => some (v :: vs)
    | _, _ => none

/-- The claim-relevant part of a saved core results document. -/
structure SavedCoreView where
  total_questions : ℚ
  valid_questions : ℚ
  invalid_questions : ℚ
  system_errors : ℚ
  student_wins : ℚ
  llm_wins : ℚ
  student_passes : Bool
  github_classroom_result : String
  question_results : List SavedCoreQuestionView
deriving Repr, DecidableEq

/-- Read a saved core results document back. -/
def readCoreView (j : J) : Option SavedCoreView :=
  match jsonNum? j "total_questions", jsonNum? j "valid_questions",
      jsonNum? j "invalid_questions", jsonNum? j "system_errors",
      jsonNum? j "student_wins", jsonNum? j "llm_wins",
      jsonBool? j "student_passes", jsonStr? j "github_classroom_result",
      jsonArr? j "question_results" with
  | some t, some v, some iv, some se, some w, some l, some p, some g,
      some arr =>
    match readCoreQuestionViews arr with
    | some qrs => some ⟨t, v, iv, se, w, l, p, g, qrs⟩
    | none => none
  | _, _, _, _, _, _, _, _, _ => none

/-! ### Concrete scripts used by witnesses and counterexamples -/

/-- A valid question the student wins. -/
def passScript : QuestionScript :=
  { question := "q", answer := "a",
    valResp := some "VALIDATION: PASS\nISSUES: None\nREASON: ok",
    ansResp := some "some answer",
    evalResp := some "VERDICT: INCORRECT\nSTUDENT_WINS: TRUE" }

/-- A valid question the LLM wins. -/
def llmWinScript : QuestionScript :=
  { passScript with evalResp := some "VERDICT: CORRECT\nSTUDENT_WINS: FALSE" }

/-- A valid question whose answering call fails. -/
def sysErrScript : QuestionScript :=
  { passScript with ansResp := none }

/-- A question the validator rejects. -/
def invalidScript : QuestionScript :=
  { passScript with valResp := some "VALIDATION: FAIL\nISSUES: x\nREASON: bad" }

/-- A question whose validation call fails at the transport layer. -/
def valFailScript : QuestionScript :=
  { passScript with valResp := none }

/-- A question with no reference answer and a blank user reply. -/
def missingAnswerScript : QuestionScript :=
  { question := "q", answer := "", userAnswer := " " }

/-! ### Counter bookkeeping of the question loop -/

/-- Each `processValidated` call adds exactly one question to the
valid/invalid split, and adds one win/llm-win/system-error exactly when
it adds one valid question. -/
theorem processValidated_delta (st : RunState) (i : Nat) (q : QuestionScript)
    (ca : String) :
    (processValidated st i q ca).valid_questions +
        (processValidated st i q ca).invalid_questions
      = st.valid_questions + st.invalid_questions + 1 ∧
    (processValidated st i q ca).student_wins +
        (processValidated st i q ca).llm_wins +
        (processValidated st i q ca).system_errors +
        st.valid_questions
      = st.student_wins + st.llm_wins + st.system_errors +
        (processValidated st i q ca).valid_questions := by
  unfold processValidated
  dsimp only
  repeat' split
  all_goals simp
  all_goals omega

/-- The same bookkeeping for the whole loop body. -/
theorem processQuestion_delta (st : RunState) (i : Nat) (q : QuestionScript) :
    (processQuestion st i q).valid_questions +
        (processQuestion st i q).invalid_questions
      = st.valid_questions + st.invalid_questions + 1 ∧
    (processQuestion st i q).student_wins +
        (processQuestion st i q).llm_wins +
        (processQuestion st i q).system_errors +
        st.valid_questions
      = st.student_wins + st.llm_wins + st.system_errors +
        (processQuestion st i q).valid_questions := by
  unfold processQuestion
  split
  · dsimp only
    split
    · simp; omega
    · exact processValidated_delta ..
  · exact processValidated_delta ..

/-- Loop-level bookkeeping, by induction over the question list. -/
theorem runLoop_delta (qs : List QuestionScript) : ∀ (i : Nat) (st : RunState),
    (runLoop i st qs).valid_questions + (runLoop i st qs).invalid_questions
      = st.valid_questions + st.invalid_questions + qs.length ∧
    (runLoop i st qs).student_wins + (runLoop i st qs).llm_wins +
        (runLoop i st qs).system_errors + st.valid_questions
      = st.student_wins + st.llm_wins + st.system_errors +
        (runLoop i st qs).valid_questions := by
  induction qs with
  | nil => intro i st; simp [runLoop]
  | cons q qs ih =>
    intro i st
    have h1 := processQuestion_delta st i q
    have h2 := ih (i + 1) (processQuestion st i q)
    simp only [runLoop, List.length_cons]
    constructor <;> omega

/-! ### Arithmetic of the success rate and pass flag -/

/-- With at least one LLM win the success rate is below `1`. -/
theorem rate_lt_one_of_llm_pos (w l : ℕ) (hl : 0 < l) :
    ¬ ((1:ℚ) ≤ (w:ℚ) / (((w + l : ℕ)):ℚ)) := by
  rw [not_le, div_lt_one (by exact_mod_cast Nat.add_pos_right w hl)]
  exact_mod_cast Nat.lt_add_of_pos_right hl

/-- The Boolean pass expression of core.py lines 777-779, rewritten as
a condition on the three counters. -/
theorem passes_eval (v w l : ℕ) :
    (decide (0 < v) && decide (0 < w + l) &&
      decide ((1:ℚ) ≤ if 0 < w + l then (w:ℚ)/(((w + l : ℕ)):ℚ) else 0))
    = (decide (0 < v) && decide (0 < w) && decide (l = 0)) := by
  rcases Nat.eq_zero_or_pos l with hl | hl
  · subst hl
    rcases Nat.eq_zero_or_pos w with hw | hw
    · subst hw; simp
    · have hw' : (w:ℚ) ≠ 0 := by exact_mod_cast hw.ne'
      simp [Nat.add_pos_left hw 0, hw, div_self hw']
  · have h1 : 0 < w + l := Nat.add_pos_right w hl
    have hl' : (0:ℚ) < (l:ℚ) := by exact_mod_cast hl
    have hlt : (w:ℚ)/((w:ℚ)+(l:ℚ)) < 1 := by
      rw [div_lt_one (by linarith [Nat.cast_nonneg (α := ℚ) w])]
      linarith
    simp [h1, Nat.pos_iff_ne_zero.mp hl, not_le.mpr hlt]

/-! ### Claim theorems -/

/-- C10: for every completed run, `valid_questions + invalid_questions =
total_questions` and `student_wins + llm_wins + system_errors =
valid_questions` (every question lands in exactly one bucket), and a
question whose reference answer is missing and not supplied is counted
in `invalid_questions`. -/
theorem counters_partition_questions (t m e : String)
    (qs : List QuestionScript) :
    ((run_sequential_challenge t m e qs).valid_questions +
        (run_sequential_challenge t m e qs).invalid_questions
      = (run_sequential_challenge t m e qs).total_questions) ∧
    ((run_sequential_challenge t m e qs).student_wins +
        (run_sequential_challenge t m e qs).llm_wins +
        (run_sequential_challenge t m e qs).system_errors
      = (run_sequential_challenge t m e qs).valid_questions) ∧
    (processQuestion {} 0 missingAnswerScript).invalid_questions = 1 := by
  have h := runLoop_delta qs 0 {}
  refine ⟨?_, ?_, by decide⟩
  · show (runLoop 0 {} qs).valid_questions + (runLoop 0 {} qs).invalid_questions
      = qs.length
    simp at h
    omega
  · show (runLoop 0 {} qs).student_wins + (runLoop 0 {} qs).llm_wins +
        (runLoop 0 {} qs).system_errors = (runLoop 0 {} qs).valid_questions
    simp at h
    omega

/-- C1: the aggregate pass flag equals `(valid_questions > 0) AND
(student_wins + llm_wins > 0) AND (success_rate >= 1.0)`; consequently a
run whose every evaluated question is a student win (with at least one
of them) passes, while one LLM win, zero valid questions, or zero
evaluated questions each force a fail. -/
theorem pass_flag_characterization (t m e : String)
    (qs : List QuestionScript) :
    ((run_sequential_challenge t m e qs).student_passes
      = (decide (0 < (run_sequential_challenge t m e qs).valid_questions) &&
         decide (0 < (run_sequential_challenge t m e qs).student_wins +
                     (run_sequential_challenge t m e qs).llm_wins) &&
         decide ((1:ℚ) ≤ (run_sequential_challenge t m e qs).student_success_rate))) ∧
    (0 < (run_sequential_challenge t m e qs).student_wins →
      (run_sequential_challenge t m e qs).llm_wins = 0 →
      (run_sequential_challenge t m e qs).student_passes = true) ∧
    (0 < (run_sequential_challenge t m e qs).llm_wins →
      (run_sequential_challenge t m e qs).student_passes = false) ∧
    ((run_sequential_challenge t m e qs).valid_questions = 0 →
      (run_sequential_challenge t m e qs).student_passes = false) ∧
    ((run_sequential_challenge t m e qs).student_wins +
        (run_sequential_challenge t m e qs).llm_wins = 0 →
      (run_sequential_challenge t m e qs).student_passes = false) := by
  have hP : (run_sequential_challenge t m e qs).student_passes
      = (decide (0 < (runLoop 0 {} qs).valid_questions) &&
         decide (0 < (runLoop 0 {} qs).student_wins) &&
         decide ((runLoop 0 {} qs).llm_wins = 0)) := passes_eval _ _ _
  have hW : (run_sequential_challenge t m e qs).student_wins
      = (runLoop 0 {} qs).student_wins := rfl
  have hL : (run_sequential_challenge t m e qs).llm_wins
      = (runLoop 0 {} qs).llm_wins := rfl
  have hV : (run_sequential_challenge t m e qs).valid_questions
      = (runLoop 0 {} qs).valid_questions := rfl
  have hpart := (runLoop_delta qs 0 {}).2
  simp at hpart
  refine ⟨rfl, ?_, ?_, ?_, ?_⟩
  · intro hw hl
    rw [hW] at hw; rw [hL] at hl
    have hv : 0 < (runLoop 0 {} qs).valid_questions := by omega
    rw [hP]; simp [hv, hw, hl]
  · intro hl
    rw [hL] at hl
    rw [hP]; simp [Nat.pos_iff_ne_zero.mp hl]
  · intro hv
    rw [hV] at hv
    rw [hP]; simp [hv]
  · intro he
    rw [hW, hL] at he
    have hw : (runLoop 0 {} qs).student_wins = 0 := by omega
    rw [hP]; simp [hw]

/-- Witness for C1: an all-student-win run passes; one LLM win, an
all-invalid run, and an all-system-error run each fail. -/
theorem pass_flag_characterization_witness :
    (run_sequential_challenge "t" "m" "e" [passScript]).student_passes = true ∧
    (run_sequential_challenge "t" "m" "e"
      [passScript, llmWinScript]).student_passes = false ∧
    (run_sequential_challenge "t" "m" "e" [invalidScript]).student_passes = false ∧
    (run_sequential_challenge "t" "m" "e" [sysErrScript]).student_passes = false :=
  ⟨(pass_flag_characterization "t" "m" "e" [passScript]).2.1
      (by decide) (by decide),
   (pass_flag_characterization "t" "m" "e" [passScript, llmWinScript]).2.2.1
      (by decide),
   (pass_flag_characterization "t" "m" "e" [invalidScript]).2.2.2.1
      (by decide),
   (pass_flag_characterization "t" "m" "e" [sysErrScript]).2.2.2.2
      (by decide)⟩

/-- C2: the success rate is `student_wins / (student_wins + llm_wins)`
when that sum is positive and `0` otherwise; with two valid questions,
one a system error and one a student win, the rate is `1`, not `1/2`. -/
theorem success_rate_excludes_system_errors (t m e : String)
    (qs : List QuestionScript) :
    ((run_sequential_challenge t m e qs).student_success_rate
      = (if 0 < (run_sequential_challenge t m e qs).student_wins +
              (run_sequential_challenge t m e qs).llm_wins then
          ((run_sequential_challenge t m e qs).student_wins : ℚ) /
            (((run_sequential_challenge t m e qs).student_wins +
              (run_sequential_challenge t m e qs).llm_wins : ℕ) : ℚ)
        else 0)) ∧
    (run_sequential_challenge "t" "m" "e"
      [sysErrScript, passScript]).valid_questions = 2 ∧
    (run_sequential_challenge "t" "m" "e"
      [sysErrScript, passScript]).system_errors = 1 ∧
    (run_sequential_challenge "t" "m" "e"
      [sysErrScript, passScript]).student_wins = 1 ∧
    (run_sequential_challenge "t" "m" "e"
      [sysErrScript, passScript]).llm_wins = 0 ∧
    (run_sequential_challenge "t" "m" "e"
      [sysErrScript, passScript]).student_success_rate = 1 := by
  refine ⟨rfl, by decide, by decide, by decide, by decide, ?_⟩
  have hw : (runLoop 0 {} [sysErrScript, passScript]).student_wins = 1 := by
    decide
  have hl : (runLoop 0 {} [sysErrScript, passScript]).llm_wins = 0 := by
    decide
  simp [run_sequential_challenge, hw, hl]

/-- Counterexample for C3 as stated: a response whose text contains the
substring "INCORRECT" (in its explanation line) but whose verdict line
says "CORRECT" parses to verdict CORRECT, not INCORRECT. -/
theorem verdict_incorrect_anywhere_counterexample :
    containsSub
      "EXPLANATION: the first claim is INCORRECT\nVERDICT: CORRECT".data
      "INCORRECT".data = true ∧
    (evaluate_llm_answer
      (some "EXPLANATION: the first claim is INCORRECT\nVERDICT: CORRECT")
      none).verdict = "CORRECT" := by
  decide

/-- C3 (amended): the INCORRECT-before-CORRECT precedence holds for the
text of the first line starting with "VERDICT:" (not for the whole
response): if that line's processed text contains "INCORRECT" the
verdict is INCORRECT even though "CORRECT" is a substring of it, and if
it contains "CORRECT" but not "INCORRECT" the verdict is CORRECT. -/
theorem verdict_line_precedence (s : String) (l : List Char) (hs : s ≠ "")
    (hl : (pyLines s).find? (lineStarts "VERDICT:") = some l) :
    (containsSub (pyUpper (fieldText "VERDICT:" l)) "INCORRECT".data = true →
      (evaluate_llm_answer (some s) none).verdict = "INCORRECT") ∧
    (containsSub (pyUpper (fieldText "VERDICT:" l)) "INCORRECT".data = false →
      containsSub (pyUpper (fieldText "VERDICT:" l)) "CORRECT".data = true →
      (evaluate_llm_answer (some s) none).verdict = "CORRECT") := by
  unfold evaluate_llm_answer
  dsimp only
  rw [if_neg hs]
  unfold evalParseBody
  dsimp only
  rw [hl]
  constructor
  · intro h1
    simp [h1]
  · intro h1 h2
    simp [h1, h2]

/-- Witness for C3 (amended) on the spec's own two examples. -/
theorem verdict_line_precedence_witness :
    (evaluate_llm_answer (some "VERDICT: INCORRECT") none).verdict
      = "INCORRECT" ∧
    (evaluate_llm_answer (some "VERDICT: CORRECT") none).verdict
      = "CORRECT" :=
  ⟨(verdict_line_precedence "VERDICT: INCORRECT" "VERDICT: INCORRECT".data
      (by decide) (by decide)).1 (by decide),
   (verdict_line_precedence "VERDICT: CORRECT" "VERDICT: CORRECT".data
      (by decide) (by decide)).2 (by decide) (by decide)⟩

/-- C4: when the answering call fails for a valid question, the
orchestrator records a system error: `system_errors` is incremented,
neither win counter moves, and the recorded result has winner
"System Error" with `student_wins = false`. -/
theorem answer_failure_counts_system_error (st : RunState) (i : Nat)
    (q : QuestionScript) (hq : q.answer ≠ "")
    (hval : (validate_question q.valResp q.valExc).valid = true)
    (hans : q.ansResp = none ∨ q.ansResp = some "") :
    (processQuestion st i q).system_errors = st.system_errors + 1 ∧
    (processQuestion st i q).student_wins = st.student_wins ∧
    (processQuestion st i q).llm_wins = st.llm_wins ∧
    ∃ rec, (processQuestion st i q).question_results
        = st.question_results ++ [rec] ∧
      rec.winner = "System Error" ∧ rec.student_wins = false ∧
      rec.evaluation.verdict = "SYSTEM_ERROR" := by
  have hsend : send_question_to_quiz_llm q.ansResp
      = { success := false, answer := "No response from LLM",
          error := some "LLM did not provide a response" } := by
    rcases hans with h | h <;> rw [h] <;> rfl
  unfold processQuestion
  rw [if_neg hq]
  unfold processValidated
  dsimp only
  rw [if_neg (by simp [hval]), hsend]
  simp [systemErrorEval, evalFailureDefault, toRecordEval]

/-- Witness for C4: a concrete failed answering call yields exactly one
system error and no wins. -/
theorem answer_failure_counts_system_error_witness :
    (processQuestion {} 0 sysErrScript).system_errors = 1 ∧
    (processQuestion {} 0 sysErrScript).student_wins = 0 ∧
    (processQuestion {} 0 sysErrScript).llm_wins = 0 := by
  have h := answer_failure_counts_system_error {} 0 sysErrScript
    (by decide) (by decide) (Or.inl rfl)
  exact ⟨h.1, h.2.1, h.2.2.1⟩

/-- C5: a failed validation call yields `valid = false` (not an
exception), the question is counted in `invalid_questions` exactly like
a substantively rejected one, and the outcome does not depend on the
answering or evaluation oracles (no further call is made). -/
theorem validation_failure_fail_closed (st : RunState) (i : Nat)
    (q : QuestionScript) (hq : q.answer ≠ "")
    (hfail : q.valResp = none ∨ q.valResp = some "") :
    (validate_question q.valResp q.valExc).valid = false ∧
    (processQuestion st i q).invalid_questions = st.invalid_questions + 1 ∧
    (processQuestion st i q).valid_questions = st.valid_questions ∧
    (processQuestion st i q).system_errors = st.system_errors ∧
    (processQuestion st i q).student_wins = st.student_wins ∧
    (processQuestion st i q).llm_wins = st.llm_wins ∧
    (∀ a ev ex, processQuestion st i
        { q with ansResp := a, evalResp := ev, evalExc := ex }
      = processQuestion st i q) := by
  have hv : validate_question q.valResp q.valExc
      = { valid := false, issues := ["Unable to validate due to API issues"],
          reason := "Validation system unavailable" } := by
    rcases hfail with h | h <;> rw [h] <;> rfl
  refine ⟨by rw [hv], ?_, ?_, ?_, ?_, ?_, ?_⟩
  · simp [processQuestion, processValidated, hq, hv]
  · simp [processQuestion, processValidated, hq, hv]
  · simp [processQuestion, processValidated, hq, hv]
  · simp [processQuestion, processValidated, hq, hv]
  · simp [processQuestion, processValidated, hq, hv]
  · intro a ev ex
    simp [processQuestion, processValidated, hq, hv, invalidRecord]

/-- Witness for C5 on a concrete transport failure. -/
theorem validation_failure_fail_closed_witness :
    (validate_question valFailScript.valResp valFailScript.valExc).valid
      = false ∧
    (processQuestion {} 0 valFailScript).invalid_questions = 1 := by
  have h := validation_failure_fail_closed {} 0 valFailScript
    (by decide) (Or.inl rfl)
  exact ⟨h.1, h.2.1⟩

/-- C6: with no "VALIDATION:" line the validation parsers (core.py and
validator.py) default to `valid = true`; with no "VERDICT:" line the
evaluation parser defaults to verdict INCORRECT. -/
theorem missing_prefix_component_defaults (s : String) (hs : s ≠ "") :
    ((pyLines s).find? (lineStarts "VALIDATION:") = none →
      (validate_question (some s) none).valid = true ∧
      (parse_validation_response s none).valid = true) ∧
    ((pyLines s).find? (lineStarts "VERDICT:") = none →
      (evaluate_llm_answer (some s) none).verdict = "INCORRECT") := by
  constructor
  · intro h
    constructor
    · unfold validate_question
      dsimp only
      rw [if_neg hs]
      unfold validateParseBody
      dsimp only
      rw [h]
    · unfold parse_validation_response parseValidationBody
      dsimp only
      rw [h]
  · intro h
    unfold evaluate_llm_answer
    dsimp only
    rw [if_neg hs]
    unfold evalParseBody
    dsimp only
    rw [h]

/-- Witness for C6 on a response with neither prefix line. -/
theorem missing_prefix_component_defaults_witness :
    (validate_question (some "no markers here") none).valid = true ∧
    (parse_validation_response "no markers here" none).valid = true ∧
    (evaluate_llm_answer (some "no markers here") none).verdict
      = "INCORRECT" :=
  ⟨((missing_prefix_component_defaults "no markers here" (by decide)).1
      (by decide)).1,
   ((missing_prefix_component_defaults "no markers here" (by decide)).1
      (by decide)).2,
   (missing_prefix_component_defaults "no markers here" (by decide)).2
      (by decide)⟩

/-- C7: on a successfully parsed evaluation response, `student_wins`
equals `verdict == INCORRECT` when no "STUDENT_WINS:" line is present;
when one is present, its (uppercased, stripped) text containing "TRUE"
decides `student_wins`, overriding the verdict — concretely, verdict
CORRECT with "STUDENT_WINS: TRUE" still gives `student_wins = true`. -/
theorem student_wins_field_precedence (s : String) (hs : s ≠ "") :
    (evaluate_llm_answer (some s) none).success = true ∧
    ((pyLines s).find? (lineStarts "STUDENT_WINS:") = none →
      (evaluate_llm_answer (some s) none).student_wins
        = decide ((evaluate_llm_answer (some s) none).verdict
            = "INCORRECT")) ∧
    (∀ l, (pyLines s).find? (lineStarts "STUDENT_WINS:") = some l →
      (evaluate_llm_answer (some s) none).student_wins
        = containsSub (pyUpper (fieldText "STUDENT_WINS:" l)) "TRUE".data) ∧
    (evaluate_llm_answer (some "VERDICT: CORRECT\nSTUDENT_WINS: TRUE")
      none).verdict = "CORRECT" ∧
    (evaluate_llm_answer (some "VERDICT: CORRECT\nSTUDENT_WINS: TRUE")
      none).student_wins = true := by
  refine ⟨?_, ?_, ?_, by decide, by decide⟩
  · unfold evaluate_llm_answer
    dsimp only
    rw [if_neg hs]
    rfl
  · intro h
    unfold evaluate_llm_answer
    dsimp only
    rw [if_neg hs]
    unfold evalParseBody
    dsimp only
    rw [h]
  · intro l h
    unfold evaluate_llm_answer
    dsimp only
    rw [if_neg hs]
    unfold evalParseBody
    dsimp only
    rw [h]

/-- Witness for C7 on concrete responses with and without the
"STUDENT_WINS:" line. -/
theorem student_wins_field_precedence_witness :
    (evaluate_llm_answer (some "VERDICT: INCORRECT") none).success = true ∧
    (evaluate_llm_answer (some "VERDICT: INCORRECT") none).student_wins
      = decide ((evaluate_llm_answer (some "VERDICT: INCORRECT")
          none).verdict = "INCORRECT") ∧
    (evaluate_llm_answer (some "VERDICT: CORRECT\nSTUDENT_WINS: TRUE")
        none).student_wins
      = containsSub (pyUpper
          (fieldText "STUDENT_WINS:" "STUDENT_WINS: TRUE".data))
          "TRUE".data :=
  ⟨(student_wins_field_precedence "VERDICT: INCORRECT" (by decide)).1,
   (student_wins_field_precedence "VERDICT: INCORRECT" (by decide)).2.1
      (by decide),
   (student_wins_field_precedence "VERDICT: CORRECT\nSTUDENT_WINS: TRUE"
      (by decide)).2.2.1 "STUDENT_WINS: TRUE".data (by decide)⟩

/-- C8: if the parsing step raises, the validation parser returns
`valid = false` with a reason carrying the parsing-error message, and
the evaluation parser returns `success = false` and
`student_wins = false` (with the exception text in its error field). -/
theorem parse_exception_safe_defaults (v e : String) (hv : v ≠ "") :
    (validate_question (some v) (some e)).valid = false ∧
    (validate_question (some v) (some e)).reason
      = "Validation parsing error: " ++ v ∧
    containsSub (validate_question (some v) (some e)).reason.data
      "parsing error".data = true ∧
    (evaluate_llm_answer (some v) (some e)).success = false ∧
    (evaluate_llm_answer (some v) (some e)).student_wins = false ∧
    (evaluate_llm_answer (some v) (some e)).error
      = some ("Parsing error: " ++ e) := by
  refine ⟨?_, ?_, ?_, ?_, ?_, ?_⟩ <;>
    · simp only [validate_question, evaluate_llm_answer]
      rw [if_neg hv]
      try rfl

/-- Witness for C8 on a concrete response and exception. -/
theorem parse_exception_safe_defaults_witness :
    (validate_question (some "x") (some "boom")).valid = false ∧
    (evaluate_llm_answer (some "x") (some "boom")).success = false ∧
    (evaluate_llm_answer (some "x") (some "boom")).student_wins = false := by
  have h := parse_exception_safe_defaults "x" "boom" (by decide)
  exact ⟨h.1, h.2.2.2.1, h.2.2.2.2.1⟩

/-- Reading one saved quiz-runner question entry back recovers its
number, `student_wins` and `is_correct`. -/
theorem readQuestionView_json (qr : QuestionResult) :
    readQuestionView (questionResultJson qr)
      = some ⟨(qr.question.number : ℚ), qr.student_wins, qr.is_correct⟩ := rfl

/-- Reading a saved quiz-runner question array back recovers every
entry, in order. -/
theorem readQuestionViews_map (l : List QuestionResult) :
    readQuestionViews (l.map questionResultJson)
      = some (l.map fun qr =>
          ⟨(qr.question.number : ℚ), qr.student_wins, qr.is_correct⟩) := by
  induction l with
  | nil => rfl
  | cons a l ih => simp [readQuestionViews, readQuestionView_json, ih]

/-- Reading one saved core question entry back recovers its number,
`student_wins` and winner. -/
theorem readCoreQuestionView_json (qr : QuestionRecord) :
    readCoreQuestionView (questionRecordJson qr)
      = some ⟨(qr.question_number : ℚ), qr.student_wins, qr.winner⟩ := rfl

/-- Reading a saved core question array back recovers every entry, in
order. -/
theorem readCoreQuestionViews_map (l : List QuestionRecord) :
    readCoreQuestionViews (l.map questionRecordJson)
      = some (l.map fun qr =>
          ⟨(qr.question_number : ℚ), qr.student_wins, qr.winner⟩) := by
  induction l with
  | nil => rfl
  | cons a l ih => simp [readCoreQuestionViews, readCoreQuestionView_json, ih]

/-- C9: serializing results to the persisted JSON form and reading that
JSON back preserves `total_questions`, `valid_questions`,
`invalid_questions`, `system_errors`, `student_wins`, `llm_wins`,
`student_passes`, and the per-question `student_wins`/winner assignment
of every `question_results` entry — both for the quiz-runner
`QuizResults` document and for the core results dict (which also
carries the per-question `winner` string). -/
theorem save_results_roundtrip :
    (∀ r : QuizResults, readResultsView (save_results_json r)
      = some ⟨(r.total_questions : ℚ), r.valid_questions,
          r.invalid_questions, r.system_errors, r.student_wins, r.llm_wins,
          r.student_passes,
          r.question_results.map fun qr =>
            ⟨(qr.question.number : ℚ), qr.student_wins, qr.is_correct⟩⟩) ∧
    (∀ r : ChallengeResults, readCoreView (challengeResultsJson r)
      = some ⟨(r.total_questions : ℚ), r.valid_questions,
          r.invalid_questions, r.system_errors, r.student_wins, r.llm_wins,
          r.student_passes, r.github_classroom_result,
          r.question_results.map fun qr =>
            ⟨(qr.question_number : ℚ), qr.student_wins, qr.winner⟩⟩) := by
  constructor
  · intro r
    have h := readQuestionViews_map r.question_results
    calc readResultsView (save_results_json r)
        = (match readQuestionViews
              (r.question_results.map questionResultJson) with
           | some qrs => some ⟨(r.total_questions : ℚ), r.valid_questions,
               r.invalid_questions, r.system_errors, r.student_wins,
               r.llm_wins, r.student_passes, qrs⟩
           | none => none) := rfl
      _ = _ := by rw [h]
  · intro r
    have h := readCoreQuestionViews_map r.question_results
    calc readCoreView (challengeResultsJson r)
        = (match readCoreQuestionViews
              (r.question_results.map questionRecordJson) with
           | some qrs => some ⟨(r.total_questions : ℚ), r.valid_questions,
               r.invalid_questions, r.system_errors, r.student_wins,
               r.llm_wins, r.student_passes, r.github_classroom_result, qrs⟩
           | none => none) := rfl
      _ = _ := by rw [h]

end LLMQuiz

